import Mathlib

/-!
Verification of the SSV message-admission and peer-scoring core.

The definitions below are a shallow embedding of:
* `message_counts.go` (`maxMessageCounts`, `MessageCounts`, `Validate`,
  `Record`, `ReachedLimits`) — Go `int` fields become `Int`, the message
  body's dynamic type becomes the sum type `MessageBody`, and `Record`'s
  `panic` branch becomes `none`;
* `logger_fields.go` (`buildLoggerFields`) — nil pointers become `Option`;
* `tracer.go`'s `scoreInspector` per-peer loop — `float64` becomes `ℝ`
  and `math.Sqrt` becomes `Real.sqrt`.

Boolean conditions keep Go's operator precedence: `a && b || c || d`
is `(a ∧ b) ∨ c ∨ d`.
-/

namespace SSV

/-- QBFT message types (ssv-spec `qbft`): `ProposalMsgType` is `iota` 0. -/
def ProposalMsgType : Nat := 0

/-- QBFT `PrepareMsgType` = 1. -/
def PrepareMsgType : Nat := 1

/-- QBFT `CommitMsgType` = 2. -/
def CommitMsgType : Nat := 2

/-- QBFT `RoundChangeMsgType` = 3. -/
def RoundChangeMsgType : Nat := 3

/-- Partial-signature message types (ssv-spec `types`): `PostConsensusPartialSig` is `iota` 0. -/
def PostConsensusPartialSig : Nat := 0

/-- `RandaoPartialSig` = 1. -/
def RandaoPartialSig : Nat := 1

/-- `SelectionProofPartialSig` = 2. -/
def SelectionProofPartialSig : Nat := 2

/-- `ContributionProofs` = 3. -/
def ContributionProofs : Nat := 3

/-- `ValidatorRegistrationPartialSig` = 4. -/
def ValidatorRegistrationPartialSig : Nat := 4

/-- The dynamic type of `msg.Body` in `Validate`/`Record`:
a consensus `*specqbft.SignedMessage` (its QBFT message type and signer list),
a `*spectypes.SignedPartialSignatureMessage` (its partial-signature type), or
any other body (the `default` case of the type switch), tagged so the
generic error can carry it. -/
inductive MessageBody where
  | consensus (msgType : Nat) (signers : List Nat)
  | partialSig (sigType : Nat)
  | unknown (tag : Nat)
deriving DecidableEq

/-- Errors returned by `Validate`: the structured `ErrUnexpectedMessageType`
(an `Error` value whose `got` field holds a human-readable description;
modelled from the spec's error taxonomy, the `Error` type itself lives
outside the provided sources), and the plain `fmt.Errorf("unexpected
message type: %d", m)` of the `default` case, carrying the body tag. -/
inductive ValidationError where
  | unexpectedMessageType (got : String)
  | unexpectedBodyType (tag : Nat)
deriving DecidableEq

/-- `MessageCounts`: one observed count per message kind (Go `int`). -/
structure MessageCounts where
  PreConsensus : Int
  Proposal : Int
  Prepare : Int
  Commit : Int
  Decided : Int
  RoundChange : Int
  PostConsensus : Int
deriving DecidableEq

/-- `maxMessageCounts`: per-round limits for a given committee size. -/
def maxMessageCounts (committeeSize : Int) : MessageCounts :=
  { PreConsensus := 1
    Proposal := 1
    Prepare := 1
    Commit := 1
    Decided := committeeSize + 1
    RoundChange := 1
    PostConsensus := 1 }

/-- The zero value `MessageCounts{}`: a key's counter starts here. -/
def mcZero : MessageCounts :=
  { PreConsensus := 0, Proposal := 0, Prepare := 0, Commit := 0
    Decided := 0, RoundChange := 0, PostConsensus := 0 }

/-- `MessageCounts.String()`. -/
def MessageCounts.toStringRepr (c : MessageCounts) : String :=
  "pre-consensus: " ++ toString c.PreConsensus ++
  ", proposal: " ++ toString c.Proposal ++
  ", prepare: " ++ toString c.Prepare ++
  ", commit: " ++ toString c.Commit ++
  ", decided: " ++ toString c.Decided ++
  ", round change: " ++ toString c.RoundChange ++
  ", post-consensus: " ++ toString c.PostConsensus

/-- `MessageCounts.Validate`. The receiver is a Go pointer, so the result
carries the (never written) counts alongside the optional error; each
condition keeps the source's `&&`/`||` precedence. -/
def MessageCounts.Validate (c : MessageCounts) (msg : MessageBody) :
    MessageCounts × Option ValidationError :=
  match msg with
  | .consensus t signers =>
    if t = ProposalMsgType then
      if c.Commit > 0 ∨ c.Decided > 0 ∨ c.PostConsensus > 0 then
        (c, some (.unexpectedMessageType ("proposal, having " ++ c.toStringRepr)))
      else (c, none)
    else if t = PrepareMsgType then
      if c.Prepare > 0 ∨ c.Commit > 0 ∨ c.Decided > 0 ∨ c.PostConsensus > 0 then
        (c, some (.unexpectedMessageType ("prepare, having " ++ c.toStringRepr)))
      else (c, none)
    else if t = CommitMsgType then
      if (signers.length = 1 ∧ c.Commit > 0) ∨ c.Decided > 0 ∨ c.PostConsensus > 0 then
        (c, some (.unexpectedMessageType ("commit, having " ++ c.toStringRepr)))
      else if (signers.length > 1 ∧ c.Decided > 0) ∨ c.PostConsensus > 0 then
        (c, some (.unexpectedMessageType ("decided, having " ++ c.toStringRepr)))
      else (c, none)
    else if t = RoundChangeMsgType then
      if c.RoundChange > 0 then
        (c, some (.unexpectedMessageType ("round change, having " ++ c.toStringRepr)))
      else (c, none)
    else (c, none)
  | .partialSig t =>
    if t = RandaoPartialSig ∨ t = SelectionProofPartialSig ∨
        t = ContributionProofs ∨ t = ValidatorRegistrationPartialSig then
      if c.PreConsensus > 0 then
        (c, some (.unexpectedMessageType ("pre-consensus, having " ++ c.toStringRepr)))
      else (c, none)
    else if t = PostConsensusPartialSig then
      if c.PostConsensus > 0 then
        (c, some (.unexpectedMessageType ("post-consensus, having " ++ c.toStringRepr)))
      else (c, none)
    else (c, none)
  | .unknown tag => (c, some (.unexpectedBodyType tag))

/-- `MessageCounts.Record`. `none` models the `panic("unexpected message
type")` of the `default` case; the empty-signers Commit branch is the
source's empty `else` (a TODO comment), which changes nothing. -/
def MessageCounts.Record (c : MessageCounts) (msg : MessageBody) :
    Option MessageCounts :=
  match msg with
  | .consensus t signers =>
    if t = ProposalMsgType then some { c with Proposal := c.Proposal + 1 }
    else if t = PrepareMsgType then some { c with Prepare := c.Prepare + 1 }
    else if t = CommitMsgType then
      if signers.length = 1 then some { c with Commit := c.Commit + 1 }
      else if signers.length > 1 then some { c with Decided := c.Decided + 1 }
      else some c
    else if t = RoundChangeMsgType then some { c with RoundChange := c.RoundChange + 1 }
    else some c
  | .partialSig t =>
    if t = RandaoPartialSig ∨ t = SelectionProofPartialSig ∨
        t = ContributionProofs ∨ t = ValidatorRegistrationPartialSig then
      some { c with PreConsensus := c.PreConsensus + 1 }
    else if t = PostConsensusPartialSig then
      some { c with PostConsensus := c.PostConsensus + 1 }
    else some c
  | .unknown _ => none

/-- `MessageCounts.ReachedLimits`. -/
def MessageCounts.ReachedLimits (c limits : MessageCounts) : Bool :=
  decide (c.PreConsensus ≥ limits.PreConsensus) ||
  decide (c.Proposal ≥ limits.Proposal) ||
  decide (c.Prepare ≥ limits.Prepare) ||
  decide (c.Commit ≥ limits.Commit) ||
  decide (c.Decided ≥ limits.Decided) ||
  decide (c.RoundChange ≥ limits.RoundChange) ||
  decide (c.PostConsensus ≥ limits.PostConsensus)

/-- `ConsensusFields` of `logger_fields.go`. -/
structure ConsensusFields where
  Round : Nat
  QBFTMessageType : Nat
deriving DecidableEq

/-- `LoggerFields` of `logger_fields.go`; the Go field `Consensus
*ConsensusFields` becomes an `Option`. -/
structure LoggerFields where
  DutyExecutorID : List Nat
  Role : Int
  SSVMessageType : Nat
  Slot : Nat
  Consensus : Option ConsensusFields
  OperatorIDs : List Nat
deriving DecidableEq

/-- The fields of a `*specqbft.Message` body read by `buildLoggerFields`. -/
structure QbftMessageFields where
  Height : Nat
  Round : Nat
  MsgType : Nat
deriving DecidableEq

/-- The field of a `*spectypes.PartialSignatureMessages` body read by
`buildLoggerFields`. -/
structure PartialSigMessagesFields where
  Slot : Nat
deriving DecidableEq

/-- The dynamic type of `decodedMessage.Body` in `buildLoggerFields`;
`Option` inside the consensus and partial-signature cases models a typed
nil pointer held by the interface (the source's `if m != nil` guards). -/
inductive LoggerBody where
  | qbftMessage (m : Option QbftMessageFields)
  | partialSigMessages (m : Option PartialSigMessagesFields)
  | other
deriving DecidableEq

/-- The parts of a `*queue.DecodedSSVMessage` read by `buildLoggerFields`. -/
structure DecodedSSVMessage where
  dutyExecutorID : List Nat
  roleType : Int
  msgType : Nat
  operatorIDs : List Nat
  body : LoggerBody
deriving DecidableEq

/-- `buildLoggerFields`; `none` is the source's nil `decodedMessage`. -/
def buildLoggerFields (decodedMessage : Option DecodedSSVMessage) : LoggerFields :=
  let descriptor : LoggerFields :=
    { DutyExecutorID := []
      Role := 0
      SSVMessageType := 0
      Slot := 0
      Consensus := some { Round := 0, QBFTMessageType := 0 }
      OperatorIDs := [] }
  match decodedMessage with
  | none => descriptor
  | some dm =>
    let d :=
      { descriptor with
          DutyExecutorID := dm.dutyExecutorID
          Role := dm.roleType
          SSVMessageType := dm.msgType
          OperatorIDs := dm.operatorIDs }
    match dm.body with
    | .qbftMessage (some m) =>
      { d with
          Slot := m.Height
          Consensus := some { Round := m.Round, QBFTMessageType := m.MsgType } }
    | .qbftMessage none => d
    | .partialSigMessages (some m) => { d with Slot := m.Slot }
    | .partialSigMessages none => d
    | .other => d

/-- `pubsub.TopicScoreSnapshot`, the per-topic fields the inspector reads;
`float64` becomes `ℝ`. -/
structure TopicScoreSnapshot where
  InvalidMessageDeliveries : ℝ
  MeshMessageDeliveries : ℝ

/-- The per-topic scoring parameter the inspector reads. -/
structure TopicScoreParamsRec where
  MeshMessageDeliveriesThreshold : ℝ

/-- The body of `scoreInspector`'s per-topic loop: extends the filtered
topic list, accumulates `math.Sqrt` of positive invalid-message
deliveries, and tallies low mesh deliveries for topics with known params. -/
noncomputable def inspectStep
    (peerScoreParamsTopics : String → Option TopicScoreParamsRec)
    (acc : List (String × TopicScoreSnapshot) × ℝ × Nat)
    (ts : String × TopicScoreSnapshot) :
    List (String × TopicScoreSnapshot) × ℝ × Nat :=
  let filtered := if ts.2.InvalidMessageDeliveries ≠ 0 then acc.1 ++ [ts] else acc.1
  let totalInvalidMessages :=
    if ts.2.InvalidMessageDeliveries > 0 then
      acc.2.1 + Real.sqrt ts.2.InvalidMessageDeliveries
    else acc.2.1
  let totalLowMeshDeliveries :=
    match peerScoreParamsTopics ts.1 with
    | some topicParams =>
      if ts.2.MeshMessageDeliveries < topicParams.MeshMessageDeliveriesThreshold then
        acc.2.2 + 1
      else acc.2.2
    | none => acc.2.2
  (filtered, totalInvalidMessages, totalLowMeshDeliveries)

/-- `scoreInspector`'s per-peer loop over `peerScores.Topics`, starting
from an empty filtered map and zero tallies. -/
noncomputable def inspectPeerTopics
    (topics : List (String × TopicScoreSnapshot))
    (peerScoreParamsTopics : String → Option TopicScoreParamsRec) :
    List (String × TopicScoreSnapshot) × ℝ × Nat :=
  topics.foldl (inspectStep peerScoreParamsTopics) ([], 0, 0)

/-- C4: for every committee size `C ≥ 1`, the limits record has
`Decided = C + 1` and every other field equal to `1`. -/
theorem maxMessageCounts_fields (committeeSize : Int) (h : 1 ≤ committeeSize) :
    (maxMessageCounts committeeSize).Decided = committeeSize + 1 ∧
    (maxMessageCounts committeeSize).PreConsensus = 1 ∧
    (maxMessageCounts committeeSize).Proposal = 1 ∧
    (maxMessageCounts committeeSize).Prepare = 1 ∧
    (maxMessageCounts committeeSize).Commit = 1 ∧
    (maxMessageCounts committeeSize).RoundChange = 1 ∧
    (maxMessageCounts committeeSize).PostConsensus = 1 :=
  ⟨rfl, rfl, rfl, rfl, rfl, rfl, rfl⟩

/-- Witness for C4 at committee size 4. -/
theorem maxMessageCounts_fields_witness :
    (1 : Int) ≤ 4 ∧
      ((maxMessageCounts 4).Decided = 4 + 1 ∧
       (maxMessageCounts 4).PreConsensus = 1 ∧
       (maxMessageCounts 4).Proposal = 1 ∧
       (maxMessageCounts 4).Prepare = 1 ∧
       (maxMessageCounts 4).Commit = 1 ∧
       (maxMessageCounts 4).RoundChange = 1 ∧
       (maxMessageCounts 4).PostConsensus = 1) :=
  ⟨by decide, maxMessageCounts_fields 4 (by decide)⟩

/-- C6: `ReachedLimits` is true exactly when at least one kind's count has
reached its corresponding limit field (a disjunction over all seven
kinds), so it fires as soon as any single kind reaches its limit. -/
theorem reachedLimits_iff_any_kind (c limits : MessageCounts) :
    c.ReachedLimits limits = true ↔
      (c.PreConsensus ≥ limits.PreConsensus ∨
       c.Proposal ≥ limits.Proposal ∨
       c.Prepare ≥ limits.Prepare ∨
       c.Commit ≥ limits.Commit ∨
       c.Decided ≥ limits.Decided ∨
       c.RoundChange ≥ limits.RoundChange ∨
       c.PostConsensus ≥ limits.PostConsensus) := by
  simp [MessageCounts.ReachedLimits, Bool.or_eq_true, decide_eq_true_eq, or_assoc]

/-- C9: `Validate` never modifies the counts it is handed — the counts
component of its result equals its input on every message. -/
theorem validate_preserves_counts (c : MessageCounts) (msg : MessageBody) :
    (c.Validate msg).1 = c := by
  cases msg <;> simp only [MessageCounts.Validate] <;> repeat' first | rfl | split

/-- C10: recording a Commit-type consensus message with an empty signer
set leaves every field of the counts unchanged. -/
theorem record_commit_no_signers (c : MessageCounts) :
    c.Record (.consensus CommitMsgType []) = some c := rfl

/-- C7: `buildLoggerFields` on a nil/absent message returns the descriptor
whose fields are all zero/empty (with the consensus sub-record present and
zero-valued, as in the source); being a total function, it never fails. -/
theorem buildLoggerFields_nil_is_zero :
    buildLoggerFields none =
      { DutyExecutorID := []
        Role := 0
        SSVMessageType := 0
        Slot := 0
        Consensus := some { Round := 0, QBFTMessageType := 0 }
        OperatorIDs := [] } := rfl

/-- C5: after recording one Proposal, a single-signer Commit validates
exactly when no Commit, Decided, or PostConsensus was already recorded;
and after recording a single-signer Commit, a Proposal fails validation
with `UnexpectedMessageType`. -/
theorem proposal_commit_ordering (c : MessageCounts) (s₁ s₂ : List Nat)
    (hC : 0 ≤ c.Commit) (h1 : s₁.length = 1) :
    (∃ c1, c.Record (.consensus ProposalMsgType s₂) = some c1 ∧
      ((c1.Validate (.consensus CommitMsgType s₁)).2 = none ↔
        ¬(c.Commit > 0 ∨ c.Decided > 0 ∨ c.PostConsensus > 0))) ∧
    (∃ c2, c.Record (.consensus CommitMsgType s₁) = some c2 ∧
      ∃ g, (c2.Validate (.consensus ProposalMsgType s₂)).2 =
        some (.unexpectedMessageType g)) := by
  constructor
  · refine ⟨{ c with Proposal := c.Proposal + 1 }, rfl, ?_⟩
    by_cases hc1 : c.Commit > 0 <;> by_cases hc2 : c.Decided > 0 <;>
      by_cases hc3 : c.PostConsensus > 0 <;>
        simp [MessageCounts.Validate, CommitMsgType, ProposalMsgType, PrepareMsgType,
          RoundChangeMsgType, h1, hc1, hc2, hc3]
  · have hpos : c.Commit + 1 > 0 := by omega
    refine ⟨{ c with Commit := c.Commit + 1 }, ?_, ?_⟩
    · simp [MessageCounts.Record, CommitMsgType, ProposalMsgType, PrepareMsgType, h1]
    · exact ⟨"proposal, having " ++
        ({ c with Commit := c.Commit + 1 } : MessageCounts).toStringRepr,
        by simp [MessageCounts.Validate, ProposalMsgType, hpos]⟩

/-- Witness for C5 at the zero counter with signer lists `[7]` and `[3]`. -/
theorem proposal_commit_ordering_witness :
    (0 ≤ mcZero.Commit ∧ ([7] : List Nat).length = 1) ∧
    ((∃ c1, mcZero.Record (.consensus ProposalMsgType [3]) = some c1 ∧
      ((c1.Validate (.consensus CommitMsgType [7])).2 = none ↔
        ¬(mcZero.Commit > 0 ∨ mcZero.Decided > 0 ∨ mcZero.PostConsensus > 0))) ∧
    (∃ c2, mcZero.Record (.consensus CommitMsgType [7]) = some c2 ∧
      ∃ g, (c2.Validate (.consensus ProposalMsgType [3])).2 =
        some (.unexpectedMessageType g))) :=
  ⟨⟨by decide, by decide⟩,
    proposal_commit_ordering mcZero [7] [3] (by decide) (by decide)⟩

/-- C2 counterexample: a consensus message whose QBFT type (9) is not in
the taxonomy is accepted by `Validate` (no error at all), refuting that
every unrecognized kind is rejected with `UnexpectedMessageType`. -/
theorem unknown_consensus_type_accepted :
    (mcZero.Validate (.consensus 9 [1])).2 = none := rfl

/-- C2 amended: only a body of unrecognized dynamic type is rejected, and
with the generic error carrying that body, not the structured
`UnexpectedMessageType`; consensus messages of unrecognized QBFT type and
partial-signature messages of unrecognized type pass `Validate`. -/
theorem unrecognized_kind_behavior (c : MessageCounts) (tag tc tp : Nat)
    (signers : List Nat)
    (hc : tc ≠ ProposalMsgType ∧ tc ≠ PrepareMsgType ∧ tc ≠ CommitMsgType ∧
      tc ≠ RoundChangeMsgType)
    (hp : tp ≠ PostConsensusPartialSig ∧ tp ≠ RandaoPartialSig ∧
      tp ≠ SelectionProofPartialSig ∧ tp ≠ ContributionProofs ∧
      tp ≠ ValidatorRegistrationPartialSig) :
    (c.Validate (.unknown tag)).2 = some (.unexpectedBodyType tag) ∧
    (c.Validate (.consensus tc signers)).2 = none ∧
    (c.Validate (.partialSig tp)).2 = none := by
  obtain ⟨hc1, hc2, hc3, hc4⟩ := hc
  obtain ⟨hp1, hp2, hp3, hp4, hp5⟩ := hp
  refine ⟨rfl, ?_, ?_⟩
  · simp [MessageCounts.Validate, hc1, hc2, hc3, hc4]
  · simp [MessageCounts.Validate, hp1, hp2, hp3, hp4, hp5]

/-- Witness for the amended C2 at the zero counter, body tag 5,
consensus type 9, partial-signature type 9. -/
theorem unrecognized_kind_behavior_witness :
    ((9 : Nat) ≠ ProposalMsgType ∧ (9 : Nat) ≠ PrepareMsgType ∧
      (9 : Nat) ≠ CommitMsgType ∧ (9 : Nat) ≠ RoundChangeMsgType) ∧
    ((9 : Nat) ≠ PostConsensusPartialSig ∧ (9 : Nat) ≠ RandaoPartialSig ∧
      (9 : Nat) ≠ SelectionProofPartialSig ∧ (9 : Nat) ≠ ContributionProofs ∧
      (9 : Nat) ≠ ValidatorRegistrationPartialSig) ∧
    ((mcZero.Validate (.unknown 5)).2 = some (.unexpectedBodyType 5) ∧
     (mcZero.Validate (.consensus 9 [1])).2 = none ∧
     (mcZero.Validate (.partialSig 9)).2 = none) :=
  ⟨by decide, by decide,
    unrecognized_kind_behavior mcZero 5 9 9 [1] (by decide) (by decide)⟩

/-- C1: evaluation at the failing input. From the zero counter, a first
multi-signer Commit (Decided) validates and is recorded, but the very
second Decided delivery is rejected by `Validate` with
`UnexpectedMessageType` (the `Decided > 0` disjunct of the Commit branch),
so four Decided deliveries cannot all validate even though the Decided
limit is committee size + 1. -/
theorem second_decided_delivery_rejected :
    (mcZero.Validate (.consensus CommitMsgType [1, 2, 3])).2 = none ∧
    mcZero.Record (.consensus CommitMsgType [1, 2, 3]) =
      some { mcZero with Decided := 1 } ∧
    ∃ g, (({ mcZero with Decided := 1 } : MessageCounts).Validate
        (.consensus CommitMsgType [1, 2, 3])).2 =
      some (.unexpectedMessageType g) := by
  refine ⟨rfl, by decide, ⟨_, rfl⟩⟩

/-- C3 counterexample: `Record` on a body of unrecognized type reaches the
`panic("unexpected message type")` branch (`none` in this embedding), so
not every operation returns normally on every input. -/
theorem record_unknown_body_faults :
    mcZero.Record (.unknown 0) = none := rfl

/-- C3 amended: `Record` returns normally exactly on recognized bodies
(consensus or partial-signature) and faults on any other body; `Validate`
and `ReachedLimits` are total functions of their inputs. -/
theorem record_faults_iff_unrecognized (c : MessageCounts) (msg : MessageBody) :
    c.Record msg = none ↔ ∃ tag, msg = MessageBody.unknown tag := by
  cases msg with
  | consensus t signers =>
      have hsome : (c.Record (.consensus t signers)).isSome = true := by
        simp only [MessageCounts.Record]
        repeat' split
        all_goals rfl
      constructor
      · intro h
        rw [h] at hsome
        cases hsome
      · rintro ⟨tag, htag⟩
        cases htag
  | partialSig t =>
      have hsome : (c.Record (.partialSig t)).isSome = true := by
        simp only [MessageCounts.Record]
        repeat' split
        all_goals rfl
      constructor
      · intro h
        rw [h] at hsome
        cases hsome
      · rintro ⟨tag, htag⟩
        cases htag
  | unknown tag => simp [MessageCounts.Record]

/-- The invalid-message component of the inspector's fold accumulates the
square roots of the strictly positive invalid-delivery counts. -/
theorem inspectStep_foldl_invalid
    (params : String → Option TopicScoreParamsRec)
    (topics : List (String × TopicScoreSnapshot))
    (acc : List (String × TopicScoreSnapshot) × ℝ × Nat) :
    (topics.foldl (inspectStep params) acc).2.1 =
      acc.2.1 +
        ((topics.filter fun ts => decide (0 < ts.2.InvalidMessageDeliveries)).map
          fun ts => Real.sqrt ts.2.InvalidMessageDeliveries).sum := by
  induction topics generalizing acc with
  | nil => simp
  | cons ts rest ih =>
      rw [List.foldl_cons, ih, List.filter_cons]
      by_cases hpos : 0 < ts.2.InvalidMessageDeliveries
      · rw [if_pos (by simpa using hpos)]
        simp only [inspectStep, List.map_cons, List.sum_cons, if_pos hpos]
        ring
      · rw [if_neg (by simpa using hpos)]
        simp only [inspectStep, if_neg hpos]

/-- C8: the inspector's total invalid-message tally equals the sum of
`Real.sqrt` over topics with strictly positive `InvalidMessageDeliveries`;
in particular, a peer with one topic at 4 invalid deliveries and no other
topics gets a tally of exactly 2. -/
theorem scoreInspector_invalid_tally
    (topics : List (String × TopicScoreSnapshot))
    (params : String → Option TopicScoreParamsRec) :
    (inspectPeerTopics topics params).2.1 =
      ((topics.filter fun ts => decide (0 < ts.2.InvalidMessageDeliveries)).map
        fun ts => Real.sqrt ts.2.InvalidMessageDeliveries).sum ∧
    (inspectPeerTopics [("topic", ⟨4, 0⟩)] params).2.1 = 2 := by
  constructor
  · rw [inspectPeerTopics, inspectStep_foldl_invalid]
    simp
  · rw [inspectPeerTopics, inspectStep_foldl_invalid]
    rw [List.filter_cons, if_pos (by norm_num), List.filter_nil, List.map_cons,
      List.map_nil, List.sum_cons, List.sum_nil]
    have h4 : Real.sqrt 4 = 2 := by
      rw [show (4 : ℝ) = 2 ^ 2 by norm_num, Real.sqrt_sq (by norm_num : (0 : ℝ) ≤ 2)]
    simp [h4]

end SSV
